import Mathlib

/-!
Shallow embedding of `src/main.py` (an NFT batch-mint script) and proofs of
the specification's claims about it.

External collaborators (the web3 chain client, the Telegram HTTP endpoint,
pandas CSV reading, and the EIP-55 checksum routine) are modelled as explicit
inputs: every place the Python code performs an external call, the embedding
consumes a value describing that call's outcome, with a raised exception
represented as an explicit error constructor.  All embedded functions are
total; a Python `try/except` that swallows an exception becomes an ordinary
branch on the error constructor.
-/

namespace CreoDisperse

/-- Python truthiness of an optional string: `None` and the empty string are
falsy (this is how `if not TELEGRAM_BOT_TOKEN`, `if not PRIVATE_KEY`,
`if tx_hash:` behave in the source). -/
def pyTruthy : Option String → Bool
  | none => false
  | some s => s != ""

/-- Outcome of the `requests.post` call inside `send_telegram_message`:
either an HTTP response (status code and body) or a raised transport
exception carrying its message. -/
inductive HttpRes
  | ok (status : Nat) (body : String)
  | exn (msg : String)
deriving DecidableEq, Repr

/-- What `send_telegram_message` logs and how it returns: it always returns
normally, after printing one of these diagnostics (or nothing on success). -/
inductive TgSendLog
  | noCreds
  | sentOk
  | sendFailed (body : String)
  | sendError (msg : String)
deriving DecidableEq, Repr

/-- Embedding of `send_telegram_message` (src/main.py lines 49-66).
The whole body is wrapped in `try/except`, so a transport exception is
caught and logged; missing credentials short-circuit before any HTTP call;
a non-200 response is logged.  The function's Python return value is always
`None`; the returned `TgSendLog` records the observable logging behaviour. -/
def send_telegram_message (botToken chatId : Option String) (post : HttpRes)
    (_message : String) : TgSendLog :=
  if ¬ (pyTruthy botToken && pyTruthy chatId) then
    .noCreds
  else
    match post with
    | .ok status body => if status ≠ 200 then .sendFailed body else .sentOk
    | .exn m => .sendError m

/-- Model of Python's `str.lower()` on the ASCII strings that addresses are:
each character is mapped to its lower-case form. -/
def pyLower (s : String) : String :=
  ⟨s.data.map Char.toLower⟩

/-- Embedding of `convert_to_checksum_address` (src/main.py lines 68-74).
`toChecksum` models `Web3.to_checksum_address`, with a raised exception
represented as `none`; the source lowercases its argument first and maps
any exception to `None`. -/
def convert_to_checksum_address (toChecksum : String → Option String)
    (address : String) : Option String :=
  toChecksum (pyLower address)

/-- One row of the CSV: first column an address string, second column a
numeric score (`points`). -/
structure Row where
  addr : String
  score : Int
deriving DecidableEq, Repr

/-- Embedding of `load_qualified_addresses` (src/main.py lines 76-100).
The `Except` input models the outcome of `pd.read_csv` plus the positional
column accesses: `.error` covers a missing file or a malformed structure
(fewer than two columns), which the source's `try/except` turns into `[]`.
On success the source filters rows with score >= 35, maps
`convert_to_checksum_address` over them, and drops the `None` results. -/
def load_qualified_addresses (toChecksum : String → Option String)
    (source : Except String (List Row)) : List String :=
  match source with
  | .error _ => []
  | .ok rows =>
      (((rows.filter (fun r => 35 ≤ r.score)).map
          (fun r => convert_to_checksum_address toChecksum r.addr)).filterMap id)

/-- Result of the `contract.functions.balanceOf(address).call()` chain call:
a balance, or a raised exception. -/
inductive BalanceRes
  | ok (b : Nat)
  | exn (msg : String)
deriving DecidableEq, Repr

/-- Outcome of the build/sign/broadcast/confirm sequence for one address
(used only when the balance check returned 0): an exception may be raised
while reading the gas price (`build_transaction`), while broadcasting
(`send_raw_transaction`), or while waiting for the receipt
(`wait_for_transaction_receipt`); otherwise the transaction is mined and
its receipt carries a hash and a status. -/
inductive TxRes
  | exnGas (msg : String)
  | exnSend (msg : String)
  | exnWait (msg : String)
  | mined (txHash : String) (status : Nat)
deriving DecidableEq, Repr

/-- The chain's behaviour towards a single address processed by
`check_balance_and_mint`. -/
structure AddrEnv where
  balance : BalanceRes
  tx : TxRes
deriving DecidableEq, Repr

/-- One Telegram notification, abstracted to its constructor tag and the
data interpolated into the formatted text.  The numeric fields record the
numbers as they are DISPLAYED in the message (the source shows
`successful_count + 1` in the success message and `failed_count + 1` in the
failure and error messages). -/
inductive TgMsg
  | startMinting
  | skipping (address : String) (succ fail total : Nat)
  | mintSuccess (address txHash : String) (succ fail total : Nat)
  | mintFailed (address : String) (succ fail total : Nat)
  | mintError (address err : String) (succ fail total : Nat)
  | noQualified
  | summary (total succ fail : Nat)
  | successList (mints : List (String × String))
  | failList (mints : List (String × String))
deriving DecidableEq, Repr

/-- A read or write interaction with the chain RPC endpoint. -/
inductive ChainCall
  | getTransactionCount
  | balanceOf (address : String)
  | gasPrice
  | sendRawTransaction
  | waitForReceipt
deriving DecidableEq, Repr

/-- What one invocation of `check_balance_and_mint` returns (the Python pair
`(tx_hash, nonce)`) together with its observable effects: the single Telegram
message it sends and the chain calls it performs. -/
structure StepResult where
  tx_hash : Option String
  new_nonce : Nat
  message : TgMsg
  calls : List ChainCall
deriving DecidableEq, Repr

/-- Embedding of `check_balance_and_mint` (src/main.py lines 102-169).
Branch by branch: a positive balance is skipped with the nonce unchanged;
balance 0 leads to build/sign/broadcast/confirm, returning
`(hash, nonce + 1)` on receipt status 1 and `(None, nonce + 1)` otherwise;
any exception along the way is caught and returns `(None, nonce)`.  Each
branch sends exactly one Telegram message with the counts the source
interpolates into it. -/
def check_balance_and_mint (env : AddrEnv) (address : String)
    (nonce successful_count failed_count total_count : Nat) : StepResult :=
  match env.balance with
  | .exn m =>
      ⟨none, nonce, .mintError address m successful_count (failed_count + 1) total_count,
        [.balanceOf address]⟩
  | .ok b =>
      if b > 0 then
        ⟨none, nonce, .skipping address successful_count failed_count total_count,
          [.balanceOf address]⟩
      else
        match env.tx with
        | .exnGas m =>
            ⟨none, nonce, .mintError address m successful_count (failed_count + 1) total_count,
              [.balanceOf address, .gasPrice]⟩
        | .exnSend m =>
            ⟨none, nonce, .mintError address m successful_count (failed_count + 1) total_count,
              [.balanceOf address, .gasPrice, .sendRawTransaction]⟩
        | .exnWait m =>
            ⟨none, nonce, .mintError address m successful_count (failed_count + 1) total_count,
              [.balanceOf address, .gasPrice, .sendRawTransaction, .waitForReceipt]⟩
        | .mined h s =>
            if s = 1 then
              ⟨some h, nonce + 1,
                .mintSuccess address h (successful_count + 1) failed_count total_count,
                [.balanceOf address, .gasPrice, .sendRawTransaction, .waitForReceipt]⟩
            else
              ⟨none, nonce + 1,
                .mintFailed address successful_count (failed_count + 1) total_count,
                [.balanceOf address, .gasPrice, .sendRawTransaction, .waitForReceipt]⟩

/-- The mutable state the `mint_nfts` loop carries across addresses:
the two outcome lists and the locally tracked nonce. -/
structure MintState where
  successful_mints : List (String × String)
  failed_mints : List (String × String)
  nonce : Nat
deriving DecidableEq, Repr

/-- Embedding of one iteration of the `mint_nfts` loop body
(src/main.py lines 195-221): call `check_balance_and_mint` with the current
tallies, then, mirroring the source, test `if tx_hash:` (Python truthiness,
so an empty-string hash would count as falsy) to append a successful mint,
and otherwise append a failed mint only when `new_nonce > nonce`
(a transaction that was attempted and consumed a nonce slot). -/
def mintStep (total : Nat) (st : MintState) (address : String) (env : AddrEnv) :
    MintState × TgMsg × List ChainCall :=
  let r := check_balance_and_mint env address st.nonce
    st.successful_mints.length st.failed_mints.length total
  let st' :=
    if pyTruthy r.tx_hash then
      { st with successful_mints := st.successful_mints ++ [(address, r.tx_hash.getD "")],
                nonce := r.new_nonce }
    else if r.new_nonce > st.nonce then
      { st with failed_mints := st.failed_mints ++ [(address, "Transaction failed")],
                nonce := r.new_nonce }
    else
      st
  (st', r.message, r.calls)

/-- The `for` loop of `mint_nfts` over the remaining addresses, accumulating
the per-address Telegram messages and chain calls in order.  The
`time.sleep(5)` between iterations has no observable effect in this model. -/
def mintLoop (total : Nat) (st : MintState) :
    List (String × AddrEnv) → MintState × List TgMsg × List ChainCall
  | [] => (st, [], [])
  | (address, env) :: rest =>
      let r1 := mintStep total st address env
      let r2 := mintLoop total r1.1 rest
      (r2.1, r1.2.1 :: r2.2.1, r1.2.2 ++ r2.2.2)

/-- Embedding of `mint_nfts` (src/main.py lines 171-228).  Missing
`PRIVATE_KEY` or `CONTRACT_ADDRESS` returns `([], [])` before any message or
chain call; otherwise it announces the start, reads the account's transaction
count (the chain environment supplies `initialNonce` as its result), and runs
the loop from `MintState.mk [] [] initialNonce`. -/
def mint_nfts (privateKey contractAddress : Option String) (initialNonce : Nat)
    (items : List (String × AddrEnv)) :
    (List (String × String) × List (String × String)) × List TgMsg × List ChainCall :=
  if ¬ (pyTruthy privateKey && pyTruthy contractAddress) then
    (([], []), [], [])
  else
    let r := mintLoop items.length ⟨[], [], initialNonce⟩ items
    ((r.1.successful_mints, r.1.failed_mints), .startMinting :: r.2.1,
      .getTransactionCount :: r.2.2)

/-- Embedding of `main` (src/main.py lines 230-273): load the qualified
addresses; when the list is empty, send exactly one "no qualified addresses"
notification and return without touching the chain; otherwise run
`mint_nfts` (pairing the i-th qualified address with the chain behaviour
`envs i`), then send the summary and, when non-empty, the success and
failure lists. -/
def main (toChecksum : String → Option String)
    (privateKey contractAddress : Option String)
    (source : Except String (List Row)) (initialNonce : Nat)
    (envs : Nat → AddrEnv) : List TgMsg × List ChainCall :=
  let qualified := load_qualified_addresses toChecksum source
  if qualified.isEmpty then
    ([.noQualified], [])
  else
    let items := qualified.enum.map (fun p => (p.2, envs p.1))
    let r := mint_nfts privateKey contractAddress initialNonce items
    let succ := r.1.1
    let fail := r.1.2
    let m1 := r.2.1 ++ [.summary qualified.length succ.length fail.length]
    let m2 := if succ.isEmpty then m1 else m1 ++ [.successList succ]
    let m3 := if fail.isEmpty then m2 else m2 ++ [.failList fail]
    (m3, r.2.2)

/-- Deliver every produced Telegram message through `send_telegram_message`,
with `http i` the endpoint's behaviour on the i-th send.  The source discards
the result of each send; this definition makes the delivery logs observable
so that their irrelevance to the mint outcome can be stated. -/
def deliverAll (botToken chatId : Option String) (http : Nat → HttpRes) :
    Nat → List TgMsg → List TgSendLog
  | _, [] => []
  | i, _m :: ms =>
      send_telegram_message botToken chatId (http i) "" :: deliverAll botToken chatId http (i + 1) ms

/-- A whole run together with the delivery of its notifications: the first
component is the run's mint outcome (messages produced and chain calls), the
second the delivery logs of the notification channel. -/
def runWithNotifications (toChecksum : String → Option String)
    (privateKey contractAddress botToken chatId : Option String)
    (source : Except String (List Row)) (initialNonce : Nat)
    (envs : Nat → AddrEnv) (http : Nat → HttpRes) :
    (List TgMsg × List ChainCall) × List TgSendLog :=
  let r := main toChecksum privateKey contractAddress source initialNonce envs
  (r, deliverAll botToken chatId http 0 r.1)

/-- An address's transaction was broadcast and confirmed: the balance check
returned 0 and the transaction was mined (any receipt status).  On every
other behaviour (skip, or an exception at any stage) the source leaves the
nonce unchanged. -/
def broadcastConfirmed (env : AddrEnv) : Bool :=
  match env.balance with
  | .ok 0 =>
      match env.tx with
      | .mined _ _ => true
      | _ => false
  | _ => false

/-- Specification-side restatement of the qualification filter, written from
the spec's words: keep, in source order, the canonical form of each row whose
score is at least 35 and whose address canonicalizes. -/
def qualifiedSpec (toChecksum : String → Option String) (rows : List Row) : List String :=
  rows.filterMap (fun r =>
    if 35 ≤ r.score then convert_to_checksum_address toChecksum r.addr else none)

/-! ## Helper lemmas -/

/-- Per-step nonce accounting: one iteration of the loop advances the nonce
by exactly one when the address's transaction was broadcast and confirmed,
and leaves it unchanged otherwise. -/
lemma mintStep_nonce (total : Nat) (st : MintState) (a : String) (e : AddrEnv) :
    (mintStep total st a e).1.nonce
      = st.nonce + (if broadcastConfirmed e then 1 else 0) := by
  obtain ⟨bal, tx⟩ := e
  cases bal with
  | exn m => simp [mintStep, check_balance_and_mint, broadcastConfirmed, pyTruthy]
  | ok b =>
    cases b with
    | zero =>
      cases tx with
      | exnGas m => simp [mintStep, check_balance_and_mint, broadcastConfirmed, pyTruthy]
      | exnSend m => simp [mintStep, check_balance_and_mint, broadcastConfirmed, pyTruthy]
      | exnWait m => simp [mintStep, check_balance_and_mint, broadcastConfirmed, pyTruthy]
      | mined h s =>
        rcases eq_or_ne s 1 with hs | hs
        · subst hs
          rcases eq_or_ne h "" with hh | hh
          · subst hh
            simp [mintStep, check_balance_and_mint, broadcastConfirmed, pyTruthy]
          · simp [mintStep, check_balance_and_mint, broadcastConfirmed, pyTruthy, hh]
        · simp [mintStep, check_balance_and_mint, broadcastConfirmed, pyTruthy, hs]
    | succ n =>
      simp [mintStep, check_balance_and_mint, broadcastConfirmed, pyTruthy]

/-! ## Claims -/

/-- C10: one invocation of `check_balance_and_mint` returns a new nonce that
is either the input nonce or the input nonce plus one — the local nonce
never decreases and never advances by more than one per address. -/
theorem spec_C10 (env : AddrEnv) (a : String) (nonce sc fc tc : Nat) :
    (check_balance_and_mint env a nonce sc fc tc).new_nonce = nonce ∨
    (check_balance_and_mint env a nonce sc fc tc).new_nonce = nonce + 1 := by
  obtain ⟨bal, tx⟩ := env
  cases bal with
  | exn m => left; simp [check_balance_and_mint]
  | ok b =>
    cases b with
    | zero =>
      cases tx with
      | exnGas m => left; simp [check_balance_and_mint]
      | exnSend m => left; simp [check_balance_and_mint]
      | exnWait m => left; simp [check_balance_and_mint]
      | mined h s =>
        rcases eq_or_ne s 1 with hs | hs
        · right; simp [check_balance_and_mint, hs]
        · right; simp [check_balance_and_mint, hs]
    | succ n => left; simp [check_balance_and_mint]

/-- C1: over any run of the mint loop, the final local nonce equals the
starting nonce plus the number of addresses whose transaction was broadcast
and confirmed (mined with any receipt status); addresses skipped for a
positive balance and addresses whose processing raised an exception
contribute nothing. -/
theorem spec_C1 (total : Nat) (st : MintState) (items : List (String × AddrEnv)) :
    (mintLoop total st items).1.nonce
      = st.nonce + (items.filter (fun p => broadcastConfirmed p.2)).length := by
  induction items generalizing st with
  | nil => simp [mintLoop]
  | cons p rest ih =>
    obtain ⟨a, e⟩ := p
    simp only [mintLoop, List.filter_cons]
    rw [ih, mintStep_nonce]
    by_cases hb : broadcastConfirmed e
    · simp [hb]; omega
    · simp [hb]

/-- C2 counterexample: an address whose held-token balance is exactly 1 is
NOT counted as a success.  Starting from an empty state, processing one
address with balance 1 leaves `successful_mints` empty: the claimed
increment of the success tally does not happen. -/
theorem spec_C2_cex :
    ¬ ((mintStep 1 ⟨[], [], 7⟩ "0xA" ⟨.ok 1, .mined "" 0⟩).1.successful_mints.length
        = (MintState.mk [] [] 7).successful_mints.length + 1) := by
  decide

/-- C2 (amended): an address whose held-token balance is exactly 1 is
skipped: the step returns the state completely unchanged (no tally is
incremented, the nonce is untouched) and sends the "already has token"
notification showing the current tallies. -/
theorem spec_C2 (total : Nat) (st : MintState) (a : String) (env : AddrEnv)
    (h : env.balance = .ok 1) :
    mintStep total st a env
      = (st, .skipping a st.successful_mints.length st.failed_mints.length total,
          [.balanceOf a]) := by
  obtain ⟨bal, tx⟩ := env
  simp only at h
  subst h
  simp [mintStep, check_balance_and_mint, pyTruthy]

/-- C2 witness: the amended theorem applied at a concrete input. -/
theorem spec_C2_witness :
    (AddrEnv.mk (.ok 1) (.mined "" 0)).balance = .ok 1 ∧
    mintStep 3 ⟨[], [], 7⟩ "0xA" ⟨.ok 1, .mined "" 0⟩
      = (⟨[], [], 7⟩, .skipping "0xA" 0 0 3, [.balanceOf "0xA"]) :=
  ⟨rfl, spec_C2 3 ⟨[], [], 7⟩ "0xA" ⟨.ok 1, .mined "" 0⟩ rfl⟩

/-- C3: evaluation of the model at an address whose balance query raises an
exception.  The loop state is returned completely unchanged — in particular
`failed_mints` does not grow, so the failure tally is NOT incremented — even
though the error notification the step sends displays the failure count as
`failed_count + 1` (here 1), i.e. the code's own message contradicts its
bookkeeping. -/
theorem spec_C3_eval :
    mintStep 1 ⟨[], [], 7⟩ "0xA" ⟨.exn "RPC error", .mined "" 0⟩
      = (⟨[], [], 7⟩, .mintError "0xA" "RPC error" 0 1 1, [.balanceOf "0xA"]) := by
  rfl

/-- C4: an address whose transaction is mined but whose receipt reports a
status other than 1 yields a failed outcome: the address is appended to
`failed_mints` (the failure tally grows by one), the nonce advances by
exactly one, and the success tally is untouched. -/
theorem spec_C4 (total : Nat) (st : MintState) (a tx : String) (s : Nat)
    (hs : s ≠ 1) :
    (mintStep total st a ⟨.ok 0, .mined tx s⟩).1
        = { st with failed_mints := st.failed_mints ++ [(a, "Transaction failed")],
                    nonce := st.nonce + 1 } ∧
    (mintStep total st a ⟨.ok 0, .mined tx s⟩).1.failed_mints.length
        = st.failed_mints.length + 1 ∧
    (mintStep total st a ⟨.ok 0, .mined tx s⟩).1.successful_mints
        = st.successful_mints := by
  refine ⟨?_, ?_, ?_⟩ <;> simp [mintStep, check_balance_and_mint, pyTruthy, hs]

/-- C4 witness: the theorem applied at a concrete input (receipt status 0). -/
theorem spec_C4_witness :
    (0 : Nat) ≠ 1 ∧
    ((mintStep 2 ⟨[], [], 5⟩ "0xB" ⟨.ok 0, .mined "0xdead" 0⟩).1
        = { MintState.mk [] [] 5 with
              failed_mints := [] ++ [("0xB", "Transaction failed")], nonce := 5 + 1 } ∧
      (mintStep 2 ⟨[], [], 5⟩ "0xB" ⟨.ok 0, .mined "0xdead" 0⟩).1.failed_mints.length
        = ([] : List (String × String)).length + 1 ∧
      (mintStep 2 ⟨[], [], 5⟩ "0xB" ⟨.ok 0, .mined "0xdead" 0⟩).1.successful_mints
        = []) :=
  ⟨by decide, spec_C4 2 ⟨[], [], 5⟩ "0xB" "0xdead" 0 (by decide)⟩

/-- C5: the qualification filter returns exactly the spec-side sequence
`qualifiedSpec` (keep, in source order, the canonical form of each row with
score at least 35 whose address canonicalizes — a `filterMap`, hence order
preserving), and an address is a member of the result iff some source row
has score at least 35 and canonicalizes to it. -/
theorem spec_C5 (cs : String → Option String) (rows : List Row) :
    load_qualified_addresses cs (.ok rows) = qualifiedSpec cs rows ∧
    ∀ a, a ∈ load_qualified_addresses cs (.ok rows) ↔
      ∃ r ∈ rows, 35 ≤ r.score ∧ convert_to_checksum_address cs r.addr = some a := by
  have h1 : load_qualified_addresses cs (.ok rows) = qualifiedSpec cs rows := by
    simp only [load_qualified_addresses, List.filterMap_map, Function.comp_def, id]
    rw [List.filterMap_filter]
    simp only [qualifiedSpec, decide_eq_true_eq]
  refine ⟨h1, fun a => ?_⟩
  rw [h1]
  simp only [qualifiedSpec, List.mem_filterMap]
  constructor
  · rintro ⟨r, hr, hif⟩
    by_cases hs : 35 ≤ r.score
    · exact ⟨r, hr, hs, by simpa [hs] using hif⟩
    · simp [hs] at hif
  · rintro ⟨r, hr, hs, hc⟩
    exact ⟨r, hr, by simp [hs, hc]⟩

/-- C6: when the tabular source cannot be read at all (missing file or
malformed structure, both modelled as the `.error` outcome of the read), the
qualification filter returns the empty sequence; being a total function, it
propagates no exception. -/
theorem spec_C6 (cs : String → Option String) (e : String) :
    load_qualified_addresses cs (.error e) = [] := rfl

/-- C7: when the qualified address sequence is empty, the run emits exactly
one notification — the "no qualified addresses" message — performs zero
chain calls, and returns normally. -/
theorem spec_C7 (cs : String → Option String) (pk ca : Option String)
    (source : Except String (List Row)) (n : Nat) (envs : Nat → AddrEnv)
    (h : load_qualified_addresses cs source = []) :
    main cs pk ca source n envs = ([.noQualified], []) := by
  simp [main, h]

/-- C7 witness: a missing input file yields an empty qualified sequence and
the theorem applies. -/
theorem spec_C7_witness :
    load_qualified_addresses (fun _ => none) (.error "missing file") = [] ∧
    main (fun _ => none) none none (.error "missing file") 0
        (fun _ => ⟨.ok 0, .mined "" 0⟩) = ([.noQualified], []) :=
  ⟨rfl, spec_C7 (fun _ => none) none none (.error "missing file") 0
      (fun _ => ⟨.ok 0, .mined "" 0⟩) rfl⟩

/-- C8: canonicalization is case-insensitive — two input strings equal up to
letter casing produce the same output (the source lowercases before calling
the checksum routine) — and any string on which the checksum routine fails
(modelled as `none`, covering a raised exception) is mapped to `None`; the
embedded function is total, so it never raises. -/
theorem spec_C8 (cs : String → Option String) :
    (∀ a b : String, pyLower a = pyLower b →
        convert_to_checksum_address cs a = convert_to_checksum_address cs b) ∧
    (∀ a : String, cs (pyLower a) = none → convert_to_checksum_address cs a = none) := by
  constructor
  · intro a b hab
    unfold convert_to_checksum_address
    rw [hab]
  · intro a ha
    exact ha

/-- C8 witness: both parts applied at concrete inputs ("0xAB" vs "0xab",
and a checksum routine that rejects everything). -/
theorem spec_C8_witness :
    (pyLower "0xAB" = pyLower "0xab") ∧
    (convert_to_checksum_address (fun _ => none) "0xAB"
        = convert_to_checksum_address (fun _ => none) "0xab") ∧
    ((fun _ : String => (none : Option String)) (pyLower "0xZZ") = none) ∧
    (convert_to_checksum_address (fun _ => none) "0xZZ" = none) :=
  ⟨by decide, (spec_C8 (fun _ => none)).1 "0xAB" "0xab" (by decide), rfl,
    (spec_C8 (fun _ => none)).2 "0xZZ" rfl⟩

/-- C9: the notification channel is fire-and-forget.  The run's mint outcome
(the messages produced and the chain calls performed, which carry the tallies
and determine the nonce evolution) is identical for any two behaviours of the
messaging endpoint and any two credential configurations; and the send
operation itself returns normally in every case — missing credentials yield
`noCreds`, a thrown transport error is absorbed into `sendError`, and a
non-200 response into `sendFailed`. -/
theorem spec_C9 (cs : String → Option String) (pk ca bt ci bt2 ci2 : Option String)
    (source : Except String (List Row)) (n : Nat) (envs : Nat → AddrEnv)
    (http http2 : Nat → HttpRes) :
    (runWithNotifications cs pk ca bt ci source n envs http).1
      = (runWithNotifications cs pk ca bt2 ci2 source n envs http2).1 ∧
    (∀ e m, send_telegram_message bt ci (.exn e) m
        = if pyTruthy bt && pyTruthy ci then .sendError e else .noCreds) ∧
    (∀ s b m, send_telegram_message bt ci (.ok s b) m
        = if pyTruthy bt && pyTruthy ci then
            (if s ≠ 200 then .sendFailed b else .sentOk)
          else .noCreds) := by
  refine ⟨rfl, ?_, ?_⟩
  · intro e m
    by_cases hc : pyTruthy bt && pyTruthy ci
    · simp [send_telegram_message, hc]
    · simp [send_telegram_message, hc]
  · intro s b m
    by_cases hc : pyTruthy bt && pyTruthy ci
    · simp [send_telegram_message, hc]
    · simp [send_telegram_message, hc]

end CreoDisperse
